import Mathlib

/-!
Shallow embedding of the dual-recorder capture subsystem of
chtushar/swear-by-sheets (Go): the audio recorder
(src/client/audio/audio.go), the screen recorder
(src/client/screen/screen.go) and the tray orchestrator
(src/client/tray/tray.go).

External effects (PortAudio calls, the screenshot library, the
filesystem) are modelled by explicit environment records whose boolean
fields say whether the corresponding external call succeeds; the
recorder structs carry the fields of the Go structs that the claims
observe (buffer / latestImage, recording, whether r.stream is non-nil,
whether the background goroutine runs, and whether r.stopChan is a
fresh un-closed channel).  Go int16 samples are modelled as Int, and
byte output as List Nat with each entry < 256 via explicit mod.
-/

namespace Audio

/-- Error outcomes of the audio recorder, one per distinct
fmt.Errorf return in audio.go. -/
inductive Error where
  | alreadyRecording
  | initFailed
  | openStreamFailed
  | startStreamFailed
  | notRecording
  | stopStreamFailed
  | closeStreamFailed
  | terminateFailed
  | noData
  | createFileFailed
  | writeFileFailed
  deriving DecidableEq

/-- The spec's DeviceError class: input device cannot be opened or
started (portaudio Initialize / OpenDefaultStream / Stream.Start
failures in StartRecording). -/
def Error.isDeviceError : Error → Bool
  | .initFailed => true
  | .openStreamFailed => true
  | .startStreamFailed => true
  | _ => false

/-- State of audio.Recorder: buffer and recording are the Go fields;
streamSet models r.stream != nil; loopRunning models the
recordingLoop goroutine being live; stopChanFresh models r.stopChan
holding a fresh (never-closed) channel. -/
structure Recorder where
  buffer : List Int
  recording : Bool
  streamSet : Bool
  loopRunning : Bool
  stopChanFresh : Bool
  deriving DecidableEq

/-- audio.NewRecorder: empty buffer, fresh stop channel. -/
def NewRecorder : Recorder :=
  { buffer := [], recording := false, streamSet := false
    loopRunning := false, stopChanFresh := true }

/-- audio.Recorder.IsRecording. -/
def Recorder.IsRecording (r : Recorder) : Bool := r.recording

/-- Outcomes of the three external calls made by StartRecording:
portaudio.Initialize, portaudio.OpenDefaultStream, Stream.Start. -/
structure StartEnv where
  initOk : Bool
  openOk : Bool
  startOk : Bool
  deriving DecidableEq

/-- audio.Recorder.StartRecording.  Mirrors the Go control flow: the
already-recording check, then recording := true and buffer cleared,
then the three external calls; each failure returns with the state as
the code leaves it (note the Go code does NOT reset r.recording on
these error paths). -/
def Recorder.StartRecording (r : Recorder) (env : StartEnv) :
    Except Error Unit × Recorder :=
  if r.recording then
    (.error .alreadyRecording, r)
  else
    let r1 : Recorder := { r with recording := true, buffer := [] }
    if env.initOk then
      if env.openOk then
        let r2 : Recorder := { r1 with streamSet := true }
        if env.startOk then
          (.ok (), { r2 with loopRunning := true })
        else
          -- stream.Close(); portaudio.Terminate(); r.stream still set
          (.error .startStreamFailed, r2)
      else
        -- portaudio.Terminate()
        (.error .openStreamFailed, r1)
    else
      (.error .initFailed, r1)

/-- Outcomes of the external calls made by StopRecording:
Stream.Stop, Stream.Close, portaudio.Terminate. -/
structure StopEnv where
  stopStreamOk : Bool
  closeStreamOk : Bool
  terminateOk : Bool
  deriving DecidableEq

/-- audio.Recorder.StopRecording.  Mirrors the Go control flow:
not-recording check, recording := false, close(stopChan) and join of
the goroutine, then stream Stop/Close (only when r.stream != nil) and
Terminate; the stop channel is recreated only on the full success
path. -/
def Recorder.StopRecording (r : Recorder) (env : StopEnv) :
    Except Error Unit × Recorder :=
  if r.recording then
    let r1 : Recorder :=
      { r with recording := false, stopChanFresh := false, loopRunning := false }
    if r1.streamSet then
      if env.stopStreamOk then
        if env.closeStreamOk then
          if env.terminateOk then
            (.ok (), { r1 with stopChanFresh := true })
          else
            (.error .terminateFailed, r1)
        else
          (.error .closeStreamFailed, r1)
      else
        (.error .stopStreamFailed, r1)
    else
      if env.terminateOk then
        (.ok (), { r1 with stopChanFresh := true })
      else
        (.error .terminateFailed, r1)
  else
    (.error .notRecording, r)

/-- audio.Recorder.processAudio: the PortAudio callback appends the
incoming chunk to the buffer while recording. -/
def Recorder.processAudio (r : Recorder) (inp : List Int) : Recorder :=
  if r.recording then { r with buffer := r.buffer ++ inp } else r

/-- Sequence of processAudio callbacks for a list of chunks. -/
def Recorder.processChunks (r : Recorder) : List (List Int) → Recorder
  | [] => r
  | c :: rest => (r.processAudio c).processChunks rest

/-- Fixed configuration constants from audio.go. -/
def sampleRate : Nat := 44100

/-- channels constant from audio.go. -/
def channels : Nat := 1

/-- Little-endian bytes of binary.Write with an int16 value v ≥ 0
interpreted on its 16-bit pattern (for a Go int16 the pattern is
v mod 2^16). -/
def le16 (n : Nat) : List Nat := [n % 256, n / 256 % 256]

/-- Little-endian bytes of binary.Write with an int32 value holding
the low 32 bits of a nonnegative Nat (Go int32 truncation). -/
def le32 (n : Nat) : List Nat :=
  [n % 256, n / 256 % 256, n / 65536 % 256, n / 16777216 % 256]

/-- Two's-complement little-endian bytes of one int16 sample. -/
def int16Bytes (v : Int) : List Nat := le16 ((v % 65536).toNat)

/-- ASCII bytes of the four 4-byte tags written by writeWAVHeader. -/
def riffTag : List Nat := [82, 73, 70, 70]

/-- ASCII bytes of WAVE. -/
def waveTag : List Nat := [87, 65, 86, 69]

/-- ASCII bytes of fmt-space. -/
def fmtTag : List Nat := [102, 109, 116, 32]

/-- ASCII bytes of data. -/
def dataTag : List Nat := [100, 97, 116, 97]

/-- audio.Recorder.writeWAVHeader: the exact 44 bytes the Go method
writes for a given dataSize (= payload byte count). -/
def writeWAVHeader (dataSize : Nat) : List Nat :=
  riffTag ++ le32 (dataSize + 36) ++ waveTag ++
  fmtTag ++ le32 16 ++ le16 1 ++ le16 channels ++ le32 sampleRate ++
  le32 (sampleRate * channels * 2) ++ le16 (channels * 2) ++ le16 16 ++
  dataTag ++ le32 dataSize

/-- The sample payload: each int16 sample as two little-endian
bytes, in buffer order (the loop over r.buffer in SaveToFile). -/
def sampleData : List Int → List Nat
  | [] => []
  | s :: rest => int16Bytes s ++ sampleData rest

/-- The full WAV file contents SaveToFile produces for a buffer:
44-byte header with dataSize = 2 * number of samples, then the
payload. -/
def wavFileBytes (buffer : List Int) : List Nat :=
  writeWAVHeader (buffer.length * 2) ++ sampleData buffer

/-- Outcomes of the filesystem calls in SaveToFile: os.Create and the
writes to the created file. -/
structure FileEnv where
  createOk : Bool
  writeOk : Bool
  deriving DecidableEq

/-- audio.Recorder.SaveToFile: empty-buffer check before os.Create,
then header and payload written to the file.  First component is the
returned error or the bytes written; second is whether a file was
created. -/
def Recorder.SaveToFile (r : Recorder) (io : FileEnv) :
    Except Error (List Nat) × Bool :=
  if r.buffer.length = 0 then
    (.error .noData, false)
  else if io.createOk then
    if io.writeOk then
      (.ok (wavFileBytes r.buffer), true)
    else
      (.error .writeFileFailed, true)
  else
    (.error .createFileFailed, false)

end Audio

namespace Screen

/-- Error outcomes of the screen recorder, one per distinct
fmt.Errorf return in screen.go. -/
inductive Error where
  | alreadyRecording
  | noDisplays
  | notRecording
  | noScreenshot
  | createFileFailed
  | encodeFailed
  deriving DecidableEq

/-- A captured frame, opaque to the claims (the RGBA conversion in
captureScreen is pixel-for-pixel, so the frame is carried as one
value). -/
abbrev Frame := Nat

/-- State of screen.Recorder: latestImage and recording are the Go
fields; loopRunning models the captureLoop goroutine; stopChanFresh
models r.stopChan holding a fresh channel. -/
structure Recorder where
  latestImage : Option Frame
  recording : Bool
  loopRunning : Bool
  stopChanFresh : Bool
  deriving DecidableEq

/-- screen.NewRecorder: no frame, fresh stop channel. -/
def NewRecorder : Recorder :=
  { latestImage := none, recording := false
    loopRunning := false, stopChanFresh := true }

/-- screen.Recorder.IsRecording. -/
def Recorder.IsRecording (r : Recorder) : Bool := r.recording

/-- screen.Recorder.HasScreenshot. -/
def Recorder.HasScreenshot (r : Recorder) : Bool := r.latestImage.isSome

/-- screen.Recorder.StartRecording, with numDisplays the value
returned by screenshot.NumActiveDisplays().  Mirrors the Go control
flow: already-recording check, recording := true and latestImage
cleared, then the display-count check which reverts recording on
failure. -/
def Recorder.StartRecording (r : Recorder) (numDisplays : Int) :
    Except Error Unit × Recorder :=
  if r.recording then
    (.error .alreadyRecording, r)
  else
    let r1 : Recorder := { r with recording := true, latestImage := none }
    if numDisplays ≤ 0 then
      (.error .noDisplays, { r1 with recording := false })
    else
      (.ok (), { r1 with loopRunning := true })

/-- screen.Recorder.StopRecording: not-recording check, recording :=
false, close(stopChan) and join, then the stop channel is recreated
(net effect: fresh again). -/
def Recorder.StopRecording (r : Recorder) :
    Except Error Unit × Recorder :=
  if r.recording then
    (.ok (),
      { r with recording := false, loopRunning := false, stopChanFresh := true })
  else
    (.error .notRecording, r)

/-- screen.Recorder.captureScreen, with captureResult the outcome of
screenshot.CaptureRect: on error the failure is logged and the state
is left untouched; on success latestImage is replaced. -/
def Recorder.captureScreen (r : Recorder) (captureResult : Option Frame) :
    Recorder :=
  match captureResult with
  | none => r
  | some img => { r with latestImage := some img }

/-- screen.Recorder.SaveToFile: nil-frame check before os.Create,
then png.Encode of the latest frame.  First component is the error or
the frame encoded; second is whether a file was created. -/
def Recorder.SaveToFile (r : Recorder) (io : Audio.FileEnv) :
    Except Error Frame × Bool :=
  match r.latestImage with
  | none => (.error .noScreenshot, false)
  | some img =>
    if io.createOk then
      if io.writeOk then
        (.ok img, true)
      else
        (.error .encodeFailed, true)
    else
      (.error .createFileFailed, false)

end Screen

namespace Tray

/-- State of the tray orchestrator (tray.Tray) restricted to the
fields the claims observe: the session flag and the two recorders. -/
structure State where
  isRecording : Bool
  audio : Audio.Recorder
  screen : Screen.Recorder
  deriving DecidableEq

/-- tray.Tray.startRecording: start audio first; on audio failure log
and set the tooltip (the surfaced error, returned here as some e) and
return without touching isRecording; otherwise attempt the screen
start, continuing in audio-only mode on its failure, and set
isRecording := true. -/
def State.startRecording (t : State) (aenv : Audio.StartEnv)
    (numDisplays : Int) : State × Option Audio.Error :=
  match t.audio.StartRecording aenv with
  | (.error e, a1) => ({ t with audio := a1 }, some e)
  | (.ok _, a1) =>
    let (_, s1) := t.screen.StartRecording numDisplays
    ({ t with audio := a1, screen := s1, isRecording := true }, none)

end Tray

namespace Audio

/-- One full audio recording period as exercised by the spec's
round-trip property: StartRecording, a run of processAudio callbacks
delivering the period's chunks, then StopRecording and SaveToFile.
Returns the save outcome (or the first error met) and the final
recorder. -/
def Recorder.period (r : Recorder) (senv : StartEnv)
    (chunks : List (List Int)) (penv : StopEnv) (io : FileEnv) :
    Except Error (List Nat) × Recorder :=
  match r.StartRecording senv with
  | (.error e, r1) => (.error e, r1)
  | (.ok _, r1) =>
    let r2 := r1.processChunks chunks
    match r2.StopRecording penv with
    | (.error e, r3) => (.error e, r3)
    | (.ok _, r3) => ((r3.SaveToFile io).1, r3)

end Audio

/-! Helper lemmas shared by the claim theorems. -/

/-- Length of the serialized sample payload: two bytes per sample. -/
theorem sampleData_length (bs : List Int) :
    (Audio.sampleData bs).length = 2 * bs.length := by
  induction bs with
  | nil => rfl
  | cons s rest ih =>
    simp [Audio.sampleData, Audio.int16Bytes, Audio.le16, ih]
    omega

/-- The WAV header is always exactly 44 bytes. -/
theorem writeWAVHeader_length (d : Nat) :
    (Audio.writeWAVHeader d).length = 44 := by
  simp [Audio.writeWAVHeader, Audio.le32, Audio.le16, Audio.riffTag,
    Audio.waveTag, Audio.fmtTag, Audio.dataTag]

/-- A successful audio StartRecording fully determines the new state:
recording, empty buffer, stream set, goroutine running. -/
theorem audioStart_ok (env : Audio.StartEnv) (r r' : Audio.Recorder) (u : Unit)
    (h : r.StartRecording env = (.ok u, r')) :
    r.recording = false ∧
      r' = { r with recording := true, buffer := [], streamSet := true
                    loopRunning := true } := by
  obtain ⟨i, o, st⟩ := env
  cases hr : r.recording <;> cases i <;> cases o <;> cases st <;>
    simp_all [Audio.Recorder.StartRecording]

/-- processAudio leaves every field but the buffer unchanged. -/
theorem processAudio_fields (r : Audio.Recorder) (c : List Int) :
    (r.processAudio c).recording = r.recording ∧
      (r.processAudio c).streamSet = r.streamSet ∧
      (r.processAudio c).loopRunning = r.loopRunning ∧
      (r.processAudio c).stopChanFresh = r.stopChanFresh := by
  unfold Audio.Recorder.processAudio
  cases hr : r.recording <;> simp [hr]

/-- While recording, a run of callbacks appends the concatenation of
the chunks to the buffer and changes nothing else. -/
theorem processChunks_spec (chunks : List (List Int)) (r : Audio.Recorder)
    (h : r.recording = true) :
    r.processChunks chunks = { r with buffer := r.buffer ++ chunks.flatten } := by
  induction chunks generalizing r with
  | nil => simp [Audio.Recorder.processChunks]
  | cons c rest ih =>
    have hp : r.processAudio c = { r with buffer := r.buffer ++ c } := by
      simp [Audio.Recorder.processAudio, h]
    simp only [Audio.Recorder.processChunks, hp]
    rw [ih _ (by simpa using h)]
    simp

/-- A successful audio StopRecording preserves the buffer, leaves the
recorder Idle and recreates the stop channel. -/
theorem audioStop_ok_state (env : Audio.StopEnv) (r r' : Audio.Recorder)
    (u : Unit) (h : r.StopRecording env = (.ok u, r')) :
    r'.buffer = r.buffer ∧ r'.recording = false ∧ r'.stopChanFresh = true := by
  obtain ⟨sp, cl, tm⟩ := env
  cases hr : r.recording <;> cases hs : r.streamSet <;>
    cases sp <;> cases cl <;> cases tm <;>
    simp_all [Audio.Recorder.StopRecording] <;>
    (subst h; exact ⟨rfl, rfl, rfl⟩)

/-- A full period that reaches a successful save produced exactly the
WAV bytes of the chunks delivered during that period, independently
of whatever the recorder's buffer held before the start. -/
theorem audioPeriod_ok_bytes (a : Audio.Recorder) (senv : Audio.StartEnv)
    (chunks : List (List Int)) (penv : Audio.StopEnv) (io : Audio.FileEnv)
    (res : List Nat) (a' : Audio.Recorder)
    (h : a.period senv chunks penv io = (.ok res, a')) :
    res = Audio.wavFileBytes chunks.flatten := by
  unfold Audio.Recorder.period at h
  rcases hst : a.StartRecording senv with ⟨est, r1⟩
  rw [hst] at h
  cases est with
  | error e => simp at h
  | ok u =>
    obtain ⟨-, hr1⟩ := audioStart_ok senv a r1 u hst
    have hrec : r1.recording = true := by rw [hr1]
    have hbuf : r1.buffer = [] := by rw [hr1]
    have hpc := processChunks_spec chunks r1 hrec
    simp only [] at h
    rcases hsp : (r1.processChunks chunks).StopRecording penv with ⟨esp, r3⟩
    rw [hsp] at h
    cases esp with
    | error e => simp at h
    | ok u2 =>
      obtain ⟨hb3, -, -⟩ := audioStop_ok_state penv _ r3 u2 hsp
      have hb3' : r3.buffer = chunks.flatten := by
        rw [hb3, hpc]
        simp [hbuf]
      by_cases hz : r3.buffer.length = 0
      · simp [Audio.Recorder.SaveToFile, hz] at h
      · rcases hco : io.createOk with _ | _ <;>
          rcases hwo : io.writeOk with _ | _ <;>
          simp [Audio.Recorder.SaveToFile, hz, hco, hwo] at h
        rw [← h.1, hb3']

/-! Claim theorems. -/

/-- Claim C1, as the code actually behaves: when StartRecording is
called from Idle and PortAudio initialize / open-stream / start-stream
fails, the call does return a device error and leaves no background
activity, but the recorder is left with recording = true (IsRecording
reports true), so a retry fails with the already-recording error
instead of being safe; the state does not revert to Idle. -/
theorem c1_device_error_leaves_recording_true :
    ((Audio.NewRecorder.StartRecording ⟨false, true, true⟩).1
        = .error .initFailed ∧
      Audio.Error.initFailed.isDeviceError = true ∧
      (Audio.NewRecorder.StartRecording ⟨false, true, true⟩).2.loopRunning
        = false) ∧
    ((Audio.NewRecorder.StartRecording ⟨false, true, true⟩).2.IsRecording
        = true ∧
      (Audio.NewRecorder.StartRecording ⟨true, false, true⟩).2.IsRecording
        = true ∧
      (Audio.NewRecorder.StartRecording ⟨true, true, false⟩).2.IsRecording
        = true) ∧
    ((Audio.NewRecorder.StartRecording ⟨false, true, true⟩).2.StartRecording
        ⟨true, true, true⟩).1 = .error .alreadyRecording :=
  ⟨⟨rfl, rfl, rfl⟩, ⟨rfl, rfl, rfl⟩, rfl⟩

/-- Claim C2: for a non-empty buffer of S samples, SaveToFile (with
the filesystem succeeding) writes exactly the WAV bytes: 44 + 2*S
bytes long, bytes 4-7 the little-endian 32-bit value S*2+36, bytes
40-43 the little-endian 32-bit value S*2, and the bytes depend only
on the buffer contents (deterministic). -/
theorem c2_wav_file_shape (r : Audio.Recorder) (hS : 0 < r.buffer.length) :
    (r.SaveToFile ⟨true, true⟩).1 = .ok (Audio.wavFileBytes r.buffer) ∧
    (Audio.wavFileBytes r.buffer).length = 44 + 2 * r.buffer.length ∧
    ((Audio.wavFileBytes r.buffer).drop 4).take 4
      = Audio.le32 (r.buffer.length * 2 + 36) ∧
    ((Audio.wavFileBytes r.buffer).drop 40).take 4
      = Audio.le32 (r.buffer.length * 2) ∧
    (∀ r' : Audio.Recorder, r'.buffer = r.buffer →
      r'.SaveToFile ⟨true, true⟩ = r.SaveToFile ⟨true, true⟩) := by
  refine ⟨?_, ?_, rfl, rfl, ?_⟩
  · simp [Audio.Recorder.SaveToFile, Nat.pos_iff_ne_zero.mp hS]
  · rw [Audio.wavFileBytes, List.length_append, writeWAVHeader_length,
      sampleData_length]
  · intro r' hb
    simp [Audio.Recorder.SaveToFile, hb]

/-- Witness for C2 at the concrete buffer of samples 1, 2, 3. -/
theorem c2_wav_file_shape_witness :
    (Audio.Recorder.SaveToFile ⟨[1, 2, 3], false, false, false, true⟩
        ⟨true, true⟩).1 = .ok (Audio.wavFileBytes [1, 2, 3]) :=
  (c2_wav_file_shape ⟨[1, 2, 3], false, false, false, true⟩ (by decide)).1

/-- Claim C3: for both recorders, a second StartRecording while in
the Recording state fails with the already-recording error and
returns the recorder unchanged (state still Recording, payload
untouched). -/
theorem c3_double_start_rejected (env : Audio.StartEnv) (n : Int)
    (a : Audio.Recorder) (s : Screen.Recorder)
    (ha : a.recording = true) (hs : s.recording = true) :
    a.StartRecording env = (.error .alreadyRecording, a) ∧
    s.StartRecording n = (.error .alreadyRecording, s) := by
  constructor
  · simp [Audio.Recorder.StartRecording, ha]
  · simp [Screen.Recorder.StartRecording, hs]

/-- Witness for C3 at concrete recorders that are Recording. -/
theorem c3_double_start_rejected_witness :
    Audio.Recorder.StartRecording ⟨[5], true, true, true, false⟩
        ⟨true, true, true⟩
      = (.error .alreadyRecording, ⟨[5], true, true, true, false⟩) ∧
    Screen.Recorder.StartRecording ⟨some 7, true, true, false⟩ 1
      = (.error .alreadyRecording, ⟨some 7, true, true, false⟩) :=
  c3_double_start_rejected ⟨true, true, true⟩ 1
    ⟨[5], true, true, true, false⟩ ⟨some 7, true, true, false⟩ rfl rfl

/-- Claim C4: for both recorders, StopRecording while Idle fails with
the not-recording error and returns the recorder unchanged (state
still Idle). -/
theorem c4_stop_while_idle_rejected (env : Audio.StopEnv)
    (a : Audio.Recorder) (s : Screen.Recorder)
    (ha : a.recording = false) (hs : s.recording = false) :
    a.StopRecording env = (.error .notRecording, a) ∧
    s.StopRecording = (.error .notRecording, s) := by
  constructor
  · simp [Audio.Recorder.StopRecording, ha]
  · simp [Screen.Recorder.StopRecording, hs]

/-- Witness for C4 at the freshly constructed recorders. -/
theorem c4_stop_while_idle_rejected_witness :
    Audio.NewRecorder.StopRecording ⟨true, true, true⟩
      = (.error .notRecording, Audio.NewRecorder) ∧
    Screen.NewRecorder.StopRecording
      = (.error .notRecording, Screen.NewRecorder) :=
  c4_stop_while_idle_rejected ⟨true, true, true⟩
    Audio.NewRecorder Screen.NewRecorder rfl rfl

/-- Claim C5: every successful StartRecording clears the previous
period's payload (audio buffer emptied, screen frame cleared), a full
audio period saves exactly the bytes of the chunks captured in that
period regardless of the prior buffer, and two periods with different
sample counts yield differently-sized files. -/
theorem c5_fresh_payload_per_period :
    (∀ (env : Audio.StartEnv) (a a' : Audio.Recorder) (u : Unit),
        a.StartRecording env = (.ok u, a') → a'.buffer = []) ∧
    (∀ (n : Int) (s s' : Screen.Recorder) (u : Unit),
        s.StartRecording n = (.ok u, s') → s'.latestImage = none) ∧
    (∀ (a : Audio.Recorder) (senv : Audio.StartEnv)
        (chunks : List (List Int)) (penv : Audio.StopEnv)
        (res : List Nat) (a' : Audio.Recorder),
        a.period senv chunks penv ⟨true, true⟩ = (.ok res, a') →
        res.length = 44 + 2 * chunks.flatten.length) ∧
    (∀ (a b : Audio.Recorder) (senv1 senv2 : Audio.StartEnv)
        (c1 c2 : List (List Int)) (penv1 penv2 : Audio.StopEnv)
        (f1 f2 : List Nat) (a' b' : Audio.Recorder),
        c1.flatten.length ≠ c2.flatten.length →
        a.period senv1 c1 penv1 ⟨true, true⟩ = (.ok f1, a') →
        b.period senv2 c2 penv2 ⟨true, true⟩ = (.ok f2, b') →
        f1.length ≠ f2.length) := by
  have hlen : ∀ (a : Audio.Recorder) (senv : Audio.StartEnv)
      (chunks : List (List Int)) (penv : Audio.StopEnv)
      (res : List Nat) (a' : Audio.Recorder),
      a.period senv chunks penv ⟨true, true⟩ = (.ok res, a') →
      res.length = 44 + 2 * chunks.flatten.length := by
    intro a senv chunks penv res a' h
    rw [audioPeriod_ok_bytes a senv chunks penv ⟨true, true⟩ res a' h,
      Audio.wavFileBytes, List.length_append, writeWAVHeader_length,
      sampleData_length]
  refine ⟨?_, ?_, hlen, ?_⟩
  · intro env a a' u h
    exact ((audioStart_ok env a a' u h).2 ▸ rfl)
  · intro n s s' u h
    cases hrec : s.recording with
    | true => simp [Screen.Recorder.StartRecording, hrec] at h
    | false =>
      by_cases hn : n ≤ 0
      · simp [Screen.Recorder.StartRecording, hrec, hn] at h
      · have h2 := congrArg Prod.snd h
        simp [Screen.Recorder.StartRecording, hrec, hn] at h2
        subst h2
        rfl
  · intro a b senv1 senv2 c1 c2 penv1 penv2 f1 f2 a' b' hne h1 h2
    rw [hlen a senv1 c1 penv1 f1 a' h1, hlen b senv2 c2 penv2 f2 b' h2]
    omega

/-- Witness for C5: a concrete period on a recorder whose buffer
still holds a stale sample produces the 50-byte file of exactly the
three new samples. -/
theorem c5_fresh_payload_per_period_witness :
    (Audio.wavFileBytes [1, 2, 3]).length = 44 + 2 * 3 :=
  c5_fresh_payload_per_period.2.2.1 ⟨[9], false, false, false, true⟩
    ⟨true, true, true⟩ [[1], [2, 3]] ⟨true, true, true⟩
    (Audio.wavFileBytes [1, 2, 3]) ⟨[1, 2, 3], false, true, false, true⟩ rfl

/-- Claim C6: a failed capture during an active period with a
previously captured frame changes nothing: the recorder is returned
intact, HasScreenshot stays true, and SaveToFile still succeeds with
the last good frame. -/
theorem c6_capture_failure_swallowed (s : Screen.Recorder)
    (img : Screen.Frame) (hrec : s.recording = true)
    (hf : s.latestImage = some img) :
    s.captureScreen none = s ∧
    (s.captureScreen none).HasScreenshot = true ∧
    (s.captureScreen none).IsRecording = true ∧
    ((s.captureScreen none).SaveToFile ⟨true, true⟩).1 = .ok img := by
  refine ⟨rfl, ?_, ?_, ?_⟩ <;>
    simp [Screen.Recorder.captureScreen, Screen.Recorder.HasScreenshot,
      Screen.Recorder.IsRecording, Screen.Recorder.SaveToFile, hf, hrec]

/-- Witness for C6 at a concrete recording recorder holding frame 7. -/
theorem c6_capture_failure_swallowed_witness :
    Screen.Recorder.captureScreen ⟨some 7, true, true, false⟩ none
        = ⟨some 7, true, true, false⟩ ∧
    (Screen.Recorder.captureScreen ⟨some 7, true, true, false⟩ none).HasScreenshot
        = true ∧
    (Screen.Recorder.captureScreen ⟨some 7, true, true, false⟩ none).IsRecording
        = true ∧
    ((Screen.Recorder.captureScreen ⟨some 7, true, true, false⟩ none).SaveToFile
        ⟨true, true⟩).1 = .ok 7 :=
  c6_capture_failure_swallowed ⟨some 7, true, true, false⟩ 7 rfl rfl

/-- Claim C7: saving with nothing captured is a no-op failure: an
audio recorder with an empty buffer (as a freshly constructed one
has) fails with noData and creates no file, and a screen recorder
with no retained frame fails with noScreenshot and creates no file. -/
theorem c7_save_nothing_captured (a : Audio.Recorder) (s : Screen.Recorder)
    (io io' : Audio.FileEnv) (hb : a.buffer = [])
    (hs : s.latestImage = none) :
    a.SaveToFile io = (.error .noData, false) ∧
    s.SaveToFile io' = (.error .noScreenshot, false) ∧
    Audio.NewRecorder.buffer = [] ∧
    Screen.NewRecorder.latestImage = none := by
  refine ⟨?_, ?_, rfl, rfl⟩
  · simp [Audio.Recorder.SaveToFile, hb]
  · simp [Screen.Recorder.SaveToFile, hs]

/-- Witness for C7 at the freshly constructed recorders. -/
theorem c7_save_nothing_captured_witness :
    Audio.NewRecorder.SaveToFile ⟨true, true⟩ = (.error .noData, false) ∧
    Screen.NewRecorder.SaveToFile ⟨true, true⟩
        = (.error .noScreenshot, false) ∧
    Audio.NewRecorder.buffer = [] ∧
    Screen.NewRecorder.latestImage = none :=
  c7_save_nothing_captured Audio.NewRecorder Screen.NewRecorder
    ⟨true, true⟩ ⟨true, true⟩ rfl rfl

/-- Claim C8: in the Stopped session state the toggle starts audio
first; if audio fails the session stays Stopped and the error is
surfaced, and if audio succeeds the session becomes Active whatever
the screen start returns (including the no-display failure). -/
theorem c8_audio_gates_session (t : Tray.State) (aenv : Audio.StartEnv)
    (n : Int) (ht : t.isRecording = false) :
    (∀ (e : Audio.Error) (a' : Audio.Recorder),
        t.audio.StartRecording aenv = (.error e, a') →
        (t.startRecording aenv n).1.isRecording = false ∧
        (t.startRecording aenv n).2 = some e) ∧
    (∀ (u : Unit) (a' : Audio.Recorder),
        t.audio.StartRecording aenv = (.ok u, a') →
        (t.startRecording aenv n).1.isRecording = true ∧
        (t.startRecording aenv n).2 = none) := by
  constructor
  · intro e a' h
    simp [Tray.State.startRecording, h, ht]
  · intro u a' h
    simp [Tray.State.startRecording, h]

/-- Witness for C8: audio init failure keeps the session Stopped and
surfaces the error; with audio succeeding and zero displays (screen
start failing) the session still becomes Active. -/
theorem c8_audio_gates_session_witness :
    ((Tray.State.mk false Audio.NewRecorder Screen.NewRecorder).startRecording
        ⟨false, true, true⟩ 0).1.isRecording = false ∧
    ((Tray.State.mk false Audio.NewRecorder Screen.NewRecorder).startRecording
        ⟨false, true, true⟩ 0).2 = some .initFailed ∧
    ((Tray.State.mk false Audio.NewRecorder Screen.NewRecorder).startRecording
        ⟨true, true, true⟩ 0).1.isRecording = true ∧
    ((Tray.State.mk false Audio.NewRecorder Screen.NewRecorder).startRecording
        ⟨true, true, true⟩ 0).2 = none := by
  have hf := (c8_audio_gates_session
      ⟨false, Audio.NewRecorder, Screen.NewRecorder⟩ ⟨false, true, true⟩ 0
      rfl).1 .initFailed ⟨[], true, false, false, true⟩ rfl
  have hs := (c8_audio_gates_session
      ⟨false, Audio.NewRecorder, Screen.NewRecorder⟩ ⟨true, true, true⟩ 0
      rfl).2 () ⟨[], true, true, true, true⟩ rfl
  exact ⟨hf.1, hf.2, hs.1, hs.2⟩

/-- Claim C9: audio StopRecording from Recording flips the state to
Idle before the teardown, so IsRecording is false afterwards even
when the stop returns an error, and on the stream-stop and
stream-close error paths the stop channel is left closed (not
recreated). -/
theorem c9_stop_flips_state_before_teardown (env : Audio.StopEnv)
    (r : Audio.Recorder) (hrec : r.recording = true) :
    ((r.StopRecording env).2).IsRecording = false ∧
    (r.streamSet = true → env.stopStreamOk = false →
      (r.StopRecording env).1 = .error .stopStreamFailed ∧
      ((r.StopRecording env).2).stopChanFresh = false) ∧
    (r.streamSet = true → env.stopStreamOk = true →
      env.closeStreamOk = false →
      (r.StopRecording env).1 = .error .closeStreamFailed ∧
      ((r.StopRecording env).2).stopChanFresh = false) := by
  obtain ⟨sp, cl, tm⟩ := env
  cases hs : r.streamSet <;> cases sp <;> cases cl <;> cases tm <;>
    simp_all [Audio.Recorder.StopRecording, Audio.Recorder.IsRecording]

/-- Witness for C9: a recording recorder with a live stream whose
stream-stop call fails; the stop errors, yet IsRecording is false and
the stop channel is left closed. -/
theorem c9_stop_flips_state_before_teardown_witness :
    ((Audio.Recorder.StopRecording ⟨[4], true, true, true, true⟩
        ⟨false, true, true⟩).2).IsRecording = false ∧
    (Audio.Recorder.StopRecording ⟨[4], true, true, true, true⟩
        ⟨false, true, true⟩).1 = .error .stopStreamFailed ∧
    ((Audio.Recorder.StopRecording ⟨[4], true, true, true, true⟩
        ⟨false, true, true⟩).2).stopChanFresh = false := by
  have h := c9_stop_flips_state_before_teardown ⟨false, true, true⟩
    ⟨[4], true, true, true, true⟩ rfl
  exact ⟨h.1, (h.2.1 rfl rfl).1, (h.2.1 rfl rfl).2⟩

/-- Claim C10: a screen StartRecording that fails on the display
check has already cleared the retained frame, so after the failed
start the recorder is Idle, HasScreenshot is false and SaveToFile
fails with noScreenshot even if a frame existed before. -/
theorem c10_failed_screen_start_clears_frame (s : Screen.Recorder)
    (img : Screen.Frame) (n : Int) (hrec : s.recording = false)
    (hf : s.latestImage = some img) (hn : n ≤ 0) :
    (s.StartRecording n).1 = .error .noDisplays ∧
    ((s.StartRecording n).2).IsRecording = false ∧
    ((s.StartRecording n).2).HasScreenshot = false ∧
    (((s.StartRecording n).2).SaveToFile ⟨true, true⟩).1
      = .error .noScreenshot := by
  refine ⟨?_, ?_, ?_, ?_⟩ <;>
    simp [Screen.Recorder.StartRecording, Screen.Recorder.IsRecording,
      Screen.Recorder.HasScreenshot, Screen.Recorder.SaveToFile, hrec, hn]

/-- Witness for C10: an idle recorder holding frame 3 started with
zero displays. -/
theorem c10_failed_screen_start_clears_frame_witness :
    (Screen.Recorder.StartRecording ⟨some 3, false, false, true⟩ 0).1
        = .error .noDisplays ∧
    ((Screen.Recorder.StartRecording ⟨some 3, false, false, true⟩ 0).2).IsRecording
        = false ∧
    ((Screen.Recorder.StartRecording ⟨some 3, false, false, true⟩ 0).2).HasScreenshot
        = false ∧
    (((Screen.Recorder.StartRecording ⟨some 3, false, false, true⟩ 0).2).SaveToFile
        ⟨true, true⟩).1 = .error .noScreenshot :=
  c10_failed_screen_start_clears_frame ⟨some 3, false, false, true⟩ 3 0
    rfl rfl (by decide)
